import Mathlib

/-!
Verification of the ElectricEye AWS Lambda auditor against its specification.

The development shallowly embeds three Python source files:

* `eeauditor/auditors/aws/AWS_Lambda_Auditor.py` — the registered checks
  (`unused_function_check`, `function_tracing_check`, `function_code_signer_check`,
  `public_lambda_layer_check`, `public_lambda_function_check`,
  `lambda_supported_runtimes_check`, `lambda_vpc_ha_subnets_check`) and the two
  read-through cache accessors `get_lambda_functions` / `get_lambda_layers`;
* `auditors/AWS_Lambda_Auditor.py` — the standalone `function_unused_check`
  that submits findings directly to Security Hub;
* `add-ons/electriceye-pagerduty-integration/raw-source/ElectricEye-to-Pagerduty.py`
  — the PagerDuty `lambda_handler`.

External AWS calls (`list_functions` pagination, `get_metric_data`,
`describe_subnets`, `get_policy`, `get_layer_version_policy`, SSM
`get_parameter`) are modelled as inputs in an `Env` record.  Timestamps are
passed in as parameters: `iso8601Time` is the formatted wall-clock string the
checks compute at entry, and day counts stand in for `datetime` values, with
subtraction embedding `timedelta` arithmetic.  Findings are records carrying
the scalar fields of the Python finding dictionaries; the long prose fields
(`Description`, `Remediation` text/URL, `Types`, `RelatedRequirements`, and
the nested `Details` payload) are omitted as no property depends on them.
-/

namespace ElectricEye

/-- One entry of `MetricDataResults` as returned by `cloudwatch.get_metric_data`;
only the `Values` list is inspected by the auditor (`len(metric["Values"]) > 0`).
The numeric contents are irrelevant, so values are carried as integers. -/
structure MetricResult where
  values : List Int
deriving Repr, DecidableEq

/-- One statement of a Lambda function resource policy, as consumed by
`public_lambda_function_check`: `s["Principal"]`, `s["Effect"]`, and the
presence of the `"Condition"` key (`hasCondition` is set by a `try/except
KeyError` around `s["Condition"]`, modelled by an `Option`). -/
structure FnPolicyStatement where
  principal : String
  effect : String
  condition : Option Unit
deriving Repr, DecidableEq

/-- One statement of a Lambda layer version policy, as consumed by
`public_lambda_layer_check`.  `conditionPrincipalOrgID` records whether the
nested key chain `s["Condition"]["StringEquals"]["aws:PrincipalOrgID"]`
resolves (the Python sets `hasCondition` via `try/except KeyError`). -/
structure LayerPolicyStatement where
  principal : String
  effect : String
  conditionPrincipalOrgID : Option Unit
deriving Repr, DecidableEq

/-- Outcome of `lambdas.get_policy(FunctionName=...)` for one function:
either the parsed `Statement` list of the returned `Policy` document, or a
`botocore` `ClientError` carrying its error code
(`error.response['Error']['Code']`). -/
inductive PolicyResult where
  | ok (statements : List FnPolicyStatement)
  | clientError (code : String)
deriving Repr, DecidableEq

/-- A function descriptor as produced by the `list_functions` pages, restricted
to the fields the checks read.  `lastModifiedDay` is the parsed `LastModified`
timestamp in days; `vpcSubnetIds` is `none` when `function["VpcConfig"]
["SubnetIds"]` raises `KeyError`; `signingJobArn` is `none` when
`function["SigningJobArn"]` raises `KeyError`; `policy` is the outcome of
`lambdas.get_policy(FunctionName=...)`. -/
structure LambdaFunction where
  functionName : String
  functionArn : String
  lastModifiedDay : Int
  tracingMode : String
  signingJobArn : Option String
  runtime : String
  vpcSubnetIds : Option (List String)
  policy : PolicyResult
deriving Repr, DecidableEq

/-- A layer descriptor as produced by the `list_layers` pages, restricted to
the fields `public_lambda_layer_check` reads.  `compatibleRuntimes` is `none`
when the key is absent (the Python substitutes `[]` on `KeyError`);
`layerPolicy` is the parsed `Statement` list of
`lambdas.get_layer_version_policy(...)["Policy"]`. -/
structure LambdaLayer where
  layerName : String
  layerVersionArn : String
  compatibleRuntimes : Option (List String)
  createdDate : String
  version : Int
  layerPolicy : List LayerPolicyStatement
deriving Repr, DecidableEq

/-- The external world of one audit pass: the paginated upstream listings and
the per-resource AWS lookups, plus the current day used for the
`datetime.now() - modify_date` arithmetic in `unused_function_check`.
`metricData` gives the `MetricDataResults` list that
`cloudwatch.get_metric_data` returns for a function name; `subnetAz` gives the
`AvailabilityZone` that `ec2.describe_subnets` reports for a subnet id. -/
structure Env where
  listFunctionPages : List (List LambdaFunction)
  listLayerPages : List (List LambdaLayer)
  metricData : String → List MetricResult
  subnetAz : String → String
  nowDay : Int

/-- The per-pass response cache (the Python `cache` dict).  The program only
ever stores under the two keys `"get_lambda_functions"` and
`"get_lambda_layers"`, so the dict is embedded as a record with one optional
slot per key (`none` = key absent). -/
structure Cache where
  getLambdaFunctions : Option (List LambdaFunction) := none
  getLambdaLayers : Option (List LambdaLayer) := none
deriving Repr, DecidableEq

/-- The fresh cache at the start of a pass. -/
def Cache.empty : Cache := {}

/-- Python truthiness of `cache.get(key)`: `None` and the empty list are
falsy, a non-empty list is truthy.  This is the test `if response:` performs
in `get_lambda_functions` / `get_lambda_layers`. -/
def pyTruthy {α : Type} (response : Option (List α)) : Bool :=
  match response with
  | none => false
  | some l => !l.isEmpty

/-- Result of one call to a cached listing accessor: the returned descriptor
list, the cache after the call, and how many times the underlying paginated
fetch ran (instrumentation of the embedding; 0 on a cache hit, 1 on a miss). -/
structure FetchOut (α : Type) where
  value : List α
  cache : Cache
  fetchCalls : Nat
deriving Repr, DecidableEq

/-- `get_lambda_functions(cache)` from `eeauditor/auditors/aws/AWS_Lambda_Auditor.py`:

    response = cache.get("get_lambda_functions")
    if response:
        return response
    paginator = lambdas.get_paginator('list_functions')
    if paginator:
        for page in paginator.paginate():
            for function in page["Functions"]:
                lambdaFunctions.append(function)
        cache["get_lambda_functions"] = lambdaFunctions
        return cache["get_lambda_functions"]

The paginator object is always truthy, so the `if paginator:` guard always
takes the fetch path on a cache miss.  Note the guard on the cached value is
truthiness, not presence: a stored empty list is treated as a miss. -/
def get_lambda_functions (env : Env) (cache : Cache) : FetchOut LambdaFunction :=
  let response := cache.getLambdaFunctions
  if pyTruthy response then
    { value := response.getD [], cache := cache, fetchCalls := 0 }
  else
    let lambdaFunctions := env.listFunctionPages.flatten
    { value := lambdaFunctions
      cache := { cache with getLambdaFunctions := some lambdaFunctions }
      fetchCalls := 1 }

/-- `get_lambda_layers(cache)`: same shape as `get_lambda_functions`, over the
`list_layers` pages and the `"get_lambda_layers"` key. -/
def get_lambda_layers (env : Env) (cache : Cache) : FetchOut LambdaLayer :=
  let response := cache.getLambdaLayers
  if pyTruthy response then
    { value := response.getD [], cache := cache, fetchCalls := 0 }
  else
    let lambdaLayers := env.listLayerPages.flatten
    { value := lambdaLayers
      cache := { cache with getLambdaLayers := some lambdaLayers }
      fetchCalls := 1 }

/-- `get_lambda_functions` with a fallible fetch: `fetchPages` is the outcome
of driving the `list_functions` paginator, `Except.error e` standing for a
raised provider error.  The Python assigns
`cache["get_lambda_functions"] = lambdaFunctions` only after the pagination
loop completes, so on a raise the dict is left untouched and the exception
propagates; the embedding returns the (unchanged) cache alongside the error. -/
def get_lambda_functionsE (fetchPages : Except String (List (List LambdaFunction)))
    (cache : Cache) : Except String (List LambdaFunction) × Cache :=
  let response := cache.getLambdaFunctions
  if pyTruthy response then
    (.ok (response.getD []), cache)
  else
    match fetchPages with
    | .error e => (.error e, cache)
    | .ok pages =>
      let lambdaFunctions := pages.flatten
      (.ok lambdaFunctions, { cache with getLambdaFunctions := some lambdaFunctions })

/-- A normalized finding, carrying the scalar fields of the Python finding
dictionaries that the verified properties inspect: the deterministic `Id`, the
`ProductArn`/`GeneratorId`/`AwsAccountId` identifiers, the three timestamp
fields, `Severity.Label`, `Confidence`, `Title`, the first (only) entry of
`Resources` (its `Type`, `Id`, `Partition`, `Region`), and the
`Compliance.Status` / `Workflow.Status` / `RecordState` triple. -/
structure Finding where
  schemaVersion : String
  id : String
  productArn : String
  generatorId : String
  awsAccountId : String
  firstObservedAt : String
  createdAt : String
  updatedAt : String
  severityLabel : String
  confidence : Int
  title : String
  resourceType : String
  resourceId : String
  resourcePartition : String
  resourceRegion : String
  complianceStatus : String
  workflowStatus : String
  recordState : String
deriving Repr, DecidableEq, Inhabited

/-- The `ProductArn` f-string every check builds:
`f"arn:{awsPartition}:securityhub:{awsRegion}:{awsAccountId}:product/{awsAccountId}/default"`. -/
def productArnFor (awsPartition awsRegion awsAccountId : String) : String :=
  "arn:" ++ awsPartition ++ ":securityhub:" ++ awsRegion ++ ":" ++ awsAccountId
    ++ ":product/" ++ awsAccountId ++ "/default"

/-- Result of invoking one registered check: the findings it yields in order,
the cache as left behind, and the number of underlying listing fetches. -/
structure CheckOut where
  findings : List Finding
  cache : Cache
  fetchCalls : Nat

/-- Loop body of `unused_function_check` for one function descriptor: one
finding per entry of `MetricDataResults`, passing when the metric has values
or the function was modified fewer than 30 days ago
(`len(metric["Values"]) > 0 or date_delta.days < 30`). -/
def unused_function_entry (env : Env) (awsAccountId awsRegion awsPartition iso8601Time : String)
    (function : LambdaFunction) : List Finding :=
  let functionName := function.functionName
  let lambdaArn := function.functionArn
  (env.metricData functionName).map (fun metric =>
    let dateDeltaDays := env.nowDay - function.lastModifiedDay
    if 0 < metric.values.length ∨ dateDeltaDays < 30 then
      { schemaVersion := "2018-10-08"
        id := lambdaArn ++ "/lambda-function-unused-check"
        productArn := productArnFor awsPartition awsRegion awsAccountId
        generatorId := lambdaArn
        awsAccountId := awsAccountId
        firstObservedAt := iso8601Time
        createdAt := iso8601Time
        updatedAt := iso8601Time
        severityLabel := "INFORMATIONAL"
        confidence := 99
        title := "[Lambda.1] Lambda functions should be deleted after 30 days of no use"
        resourceType := "AwsLambdaFunction"
        resourceId := lambdaArn
        resourcePartition := awsPartition
        resourceRegion := awsRegion
        complianceStatus := "PASSED"
        workflowStatus := "RESOLVED"
        recordState := "ARCHIVED" }
    else
      { schemaVersion := "2018-10-08"
        id := lambdaArn ++ "/lambda-function-unused-check"
        productArn := productArnFor awsPartition awsRegion awsAccountId
        generatorId := lambdaArn
        awsAccountId := awsAccountId
        firstObservedAt := iso8601Time
        createdAt := iso8601Time
        updatedAt := iso8601Time
        severityLabel := "LOW"
        confidence := 99
        title := "[Lambda.1] Lambda functions should be deleted after 30 days of no use"
        resourceType := "AwsLambdaFunction"
        resourceId := lambdaArn
        resourcePartition := awsPartition
        resourceRegion := awsRegion
        complianceStatus := "FAILED"
        workflowStatus := "NEW"
        recordState := "ACTIVE" })

/-- `unused_function_check` ([Lambda.1]): iterates the cached function
listing, querying CloudWatch invocation metrics per function. -/
def unused_function_check (env : Env) (cache : Cache)
    (awsAccountId awsRegion awsPartition iso8601Time : String) : CheckOut :=
  let fetched := get_lambda_functions env cache
  { findings := fetched.value.flatMap (unused_function_entry env awsAccountId awsRegion awsPartition iso8601Time)
    cache := fetched.cache
    fetchCalls := fetched.fetchCalls }

/-- Loop body of `function_tracing_check` for one function descriptor:
passing exactly when `str(function["TracingConfig"]["Mode"]) == "Active"`. -/
def function_tracing_entry (awsAccountId awsRegion awsPartition iso8601Time : String)
    (function : LambdaFunction) : List Finding :=
  let functionName := function.functionName
  let lambdaArn := function.functionArn
  let _ := functionName
  if function.tracingMode = "Active" then
    [{ schemaVersion := "2018-10-08"
       id := lambdaArn ++ "/lambda-active-tracing-check"
       productArn := productArnFor awsPartition awsRegion awsAccountId
       generatorId := lambdaArn
       awsAccountId := awsAccountId
       firstObservedAt := iso8601Time
       createdAt := iso8601Time
       updatedAt := iso8601Time
       severityLabel := "INFORMATIONAL"
       confidence := 99
       title := "[Lambda.2] Lambda functions should use active tracing with AWS X-Ray"
       resourceType := "AwsLambdaFunction"
       resourceId := lambdaArn
       resourcePartition := awsPartition
       resourceRegion := awsRegion
       complianceStatus := "PASSED"
       workflowStatus := "RESOLVED"
       recordState := "ARCHIVED" }]
  else
    [{ schemaVersion := "2018-10-08"
       id := lambdaArn ++ "/lambda-active-tracing-check"
       productArn := productArnFor awsPartition awsRegion awsAccountId
       generatorId := lambdaArn
       awsAccountId := awsAccountId
       firstObservedAt := iso8601Time
       createdAt := iso8601Time
       updatedAt := iso8601Time
       severityLabel := "LOW"
       confidence := 99
       title := "[Lambda.2] Lambda functions should use active tracing with AWS X-Ray"
       resourceType := "AwsLambdaFunction"
       resourceId := lambdaArn
       resourcePartition := awsPartition
       resourceRegion := awsRegion
       complianceStatus := "FAILED"
       workflowStatus := "NEW"
       recordState := "ACTIVE" }]

/-- `function_tracing_check` ([Lambda.2]). -/
def function_tracing_check (env : Env) (cache : Cache)
    (awsAccountId awsRegion awsPartition iso8601Time : String) : CheckOut :=
  let fetched := get_lambda_functions env cache
  { findings := fetched.value.flatMap (function_tracing_entry awsAccountId awsRegion awsPartition iso8601Time)
    cache := fetched.cache
    fetchCalls := fetched.fetchCalls }

/-- Loop body of `function_code_signer_check` for one function descriptor: the
Python wraps `str(function["SigningJobArn"])` in `try/except KeyError`;
presence of the key yields the passing finding, absence the failing one. -/
def function_code_signer_entry (awsAccountId awsRegion awsPartition iso8601Time : String)
    (function : LambdaFunction) : List Finding :=
  let lambdaArn := function.functionArn
  match function.signingJobArn with
  | some _ =>
    [{ schemaVersion := "2018-10-08"
       id := lambdaArn ++ "/lambda-code-signing-check"
       productArn := productArnFor awsPartition awsRegion awsAccountId
       generatorId := lambdaArn
       awsAccountId := awsAccountId
       firstObservedAt := iso8601Time
       createdAt := iso8601Time
       updatedAt := iso8601Time
       severityLabel := "INFORMATIONAL"
       confidence := 99
       title := "[Lambda.3] Lambda functions should use code signing from AWS Signer to ensure trusted code runs in a Function"
       resourceType := "AwsLambdaFunction"
       resourceId := lambdaArn
       resourcePartition := awsPartition
       resourceRegion := awsRegion
       complianceStatus := "PASSED"
       workflowStatus := "RESOLVED"
       recordState := "ARCHIVED" }]
  | none =>
    [{ schemaVersion := "2018-10-08"
       id := lambdaArn ++ "/lambda-code-signing-check"
       productArn := productArnFor awsPartition awsRegion awsAccountId
       generatorId := lambdaArn
       awsAccountId := awsAccountId
       firstObservedAt := iso8601Time
       createdAt := iso8601Time
       updatedAt := iso8601Time
       severityLabel := "MEDIUM"
       confidence := 99
       title := "[Lambda.3] Lambda functions should use code signing from AWS Signer to ensure trusted code runs in a Function"
       resourceType := "AwsLambdaFunction"
       resourceId := lambdaArn
       resourcePartition := awsPartition
       resourceRegion := awsRegion
       complianceStatus := "FAILED"
       workflowStatus := "NEW"
       recordState := "ACTIVE" }]

/-- `function_code_signer_check` ([Lambda.3]). -/
def function_code_signer_check (env : Env) (cache : Cache)
    (awsAccountId awsRegion awsPartition iso8601Time : String) : CheckOut :=
  let fetched := get_lambda_functions env cache
  { findings := fetched.value.flatMap (function_code_signer_entry awsAccountId awsRegion awsPartition iso8601Time)
    cache := fetched.cache
    fetchCalls := fetched.fetchCalls }

/-- The `supportedRuntimes` literal of `lambda_supported_runtimes_check`. -/
def supportedRuntimes : List String :=
  ["nodejs14.x", "nodejs12.x", "python3.9", "python3.8", "python3.7", "python3.6",
   "ruby2.7", "java11", "java8", "java8.al2", "go1.x", "dotnet6", "dotnetcore3.1",
   "provided.al2", "provided"]

/-- Loop body of `lambda_supported_runtimes_check` for one function
descriptor: failing when `lambdaRuntime not in supportedRuntimes`. -/
def lambda_supported_runtimes_entry (awsAccountId awsRegion awsPartition iso8601Time : String)
    (function : LambdaFunction) : List Finding :=
  let lambdaArn := function.functionArn
  let lambdaRuntime := function.runtime
  if lambdaRuntime ∉ supportedRuntimes then
    [{ schemaVersion := "2018-10-08"
       id := lambdaArn ++ "/lambda-supported-runtimes-check"
       productArn := productArnFor awsPartition awsRegion awsAccountId
       generatorId := lambdaArn
       awsAccountId := awsAccountId
       firstObservedAt := iso8601Time
       createdAt := iso8601Time
       updatedAt := iso8601Time
       severityLabel := "MEDIUM"
       confidence := 99
       title := "[Lambda.6] Lambda functions should use supported runtimes"
       resourceType := "AwsLambdaFunction"
       resourceId := lambdaArn
       resourcePartition := awsPartition
       resourceRegion := awsRegion
       complianceStatus := "FAILED"
       workflowStatus := "NEW"
       recordState := "ACTIVE" }]
  else
    [{ schemaVersion := "2018-10-08"
       id := lambdaArn ++ "/lambda-supported-runtimes-check"
       productArn := productArnFor awsPartition awsRegion awsAccountId
       generatorId := lambdaArn
       awsAccountId := awsAccountId
       firstObservedAt := iso8601Time
       createdAt := iso8601Time
       updatedAt := iso8601Time
       severityLabel := "INFORMATIONAL"
       confidence := 99
       title := "[Lambda.6] Lambda functions should use supported runtimes"
       resourceType := "AwsLambdaFunction"
       resourceId := lambdaArn
       resourcePartition := awsPartition
       resourceRegion := awsRegion
       complianceStatus := "PASSED"
       workflowStatus := "RESOLVED"
       recordState := "ARCHIVED" }]

/-- `lambda_supported_runtimes_check` ([Lambda.6]). -/
def lambda_supported_runtimes_check (env : Env) (cache : Cache)
    (awsAccountId awsRegion awsPartition iso8601Time : String) : CheckOut :=
  let fetched := get_lambda_functions env cache
  { findings := fetched.value.flatMap (lambda_supported_runtimes_entry awsAccountId awsRegion awsPartition iso8601Time)
    cache := fetched.cache
    fetchCalls := fetched.fetchCalls }

/-- Loop body of `public_lambda_layer_check` for one layer: one finding per
statement of the layer version policy, failing (HIGH) when
`principal == "*" and effect == "Allow" and hasCondition == False`. -/
def public_lambda_layer_entry (awsAccountId awsRegion awsPartition iso8601Time : String)
    (layer : LambdaLayer) : List Finding :=
  let layerArn := layer.layerVersionArn
  layer.layerPolicy.map (fun s =>
    let principal := s.principal
    let effect := s.effect
    let hasCondition := s.conditionPrincipalOrgID.isSome
    if principal = "*" ∧ effect = "Allow" ∧ hasCondition = false then
      { schemaVersion := "2018-10-08"
        id := layerArn ++ "/public-lambda-layer-check"
        productArn := productArnFor awsPartition awsRegion awsAccountId
        generatorId := layerArn
        awsAccountId := awsAccountId
        firstObservedAt := iso8601Time
        createdAt := iso8601Time
        updatedAt := iso8601Time
        severityLabel := "HIGH"
        confidence := 99
        title := "[Lambda.4] Lambda layers should not be publicly shared"
        resourceType := "AwsLambdaLayerVersion"
        resourceId := layerArn
        resourcePartition := awsPartition
        resourceRegion := awsRegion
        complianceStatus := "FAILED"
        workflowStatus := "NEW"
        recordState := "ACTIVE" }
    else
      { schemaVersion := "2018-10-08"
        id := layerArn ++ "/public-lambda-layer-check"
        productArn := productArnFor awsPartition awsRegion awsAccountId
        generatorId := layerArn
        awsAccountId := awsAccountId
        firstObservedAt := iso8601Time
        createdAt := iso8601Time
        updatedAt := iso8601Time
        severityLabel := "INFORMATIONAL"
        confidence := 99
        title := "[Lambda.4] Lambda layers should not be publicly shared"
        resourceType := "AwsLambdaLayerVersion"
        resourceId := layerArn
        resourcePartition := awsPartition
        resourceRegion := awsRegion
        complianceStatus := "PASSED"
        workflowStatus := "RESOLVED"
        recordState := "ARCHIVED" })

/-- `public_lambda_layer_check` ([Lambda.4]); consumes the cached layer
listing via `get_lambda_layers`. -/
def public_lambda_layer_check (env : Env) (cache : Cache)
    (awsAccountId awsRegion awsPartition iso8601Time : String) : CheckOut :=
  let fetched := get_lambda_layers env cache
  { findings := fetched.value.flatMap (public_lambda_layer_entry awsAccountId awsRegion awsPartition iso8601Time)
    cache := fetched.cache
    fetchCalls := fetched.fetchCalls }

/-- Loop body of `public_lambda_function_check` for one function.  When
`lambdas.get_policy` succeeds, one finding per policy statement (failing on a
public unconditioned Allow); when it raises a `ClientError`, the handler
yields the exempt passing finding only for error code
`'ResourceNotFoundException'` — any other code falls through the `if` with no
`yield` and no re-raise, so the function contributes nothing. -/
def public_lambda_function_entry (awsAccountId awsRegion awsPartition iso8601Time : String)
    (function : LambdaFunction) : List Finding :=
  let functionName := function.functionName
  let lambdaArn := function.functionArn
  let _ := functionName
  match function.policy with
  | .ok statements =>
    statements.map (fun s =>
      let principal := s.principal
      let effect := s.effect
      let hasCondition := s.condition.isSome
      if principal = "*" ∧ effect = "Allow" ∧ hasCondition = false then
        { schemaVersion := "2018-10-08"
          id := lambdaArn ++ "/public-lambda-function-check"
          productArn := productArnFor awsPartition awsRegion awsAccountId
          generatorId := lambdaArn
          awsAccountId := awsAccountId
          firstObservedAt := iso8601Time
          createdAt := iso8601Time
          updatedAt := iso8601Time
          severityLabel := "MEDIUM"
          confidence := 99
          title := "[Lambda.5] Lambda functions should not be publicly shared"
          resourceType := "AwsLambdaFunction"
          resourceId := lambdaArn
          resourcePartition := awsPartition
          resourceRegion := awsRegion
          complianceStatus := "FAILED"
          workflowStatus := "NEW"
          recordState := "ACTIVE" }
      else
        { schemaVersion := "2018-10-08"
          id := lambdaArn ++ "/public-lambda-function-check"
          productArn := productArnFor awsPartition awsRegion awsAccountId
          generatorId := lambdaArn
          awsAccountId := awsAccountId
          firstObservedAt := iso8601Time
          createdAt := iso8601Time
          updatedAt := iso8601Time
          severityLabel := "INFORMATIONAL"
          confidence := 99
          title := "[Lambda.5] Lambda functions should not be publicly shared"
          resourceType := "AwsLambdaFunction"
          resourceId := lambdaArn
          resourcePartition := awsPartition
          resourceRegion := awsRegion
          complianceStatus := "PASSED"
          workflowStatus := "RESOLVED"
          recordState := "ARCHIVED" })
  | .clientError code =>
    if code = "ResourceNotFoundException" then
      [{ schemaVersion := "2018-10-08"
         id := lambdaArn ++ "/public-lambda-function-check"
         productArn := productArnFor awsPartition awsRegion awsAccountId
         generatorId := lambdaArn
         awsAccountId := awsAccountId
         firstObservedAt := iso8601Time
         createdAt := iso8601Time
         updatedAt := iso8601Time
         severityLabel := "INFORMATIONAL"
         confidence := 99
         title := "[Lambda.5] Lambda functions should not be publicly shared"
         resourceType := "AwsLambdaFunction"
         resourceId := lambdaArn
         resourcePartition := awsPartition
         resourceRegion := awsRegion
         complianceStatus := "PASSED"
         workflowStatus := "RESOLVED"
         recordState := "ARCHIVED" }]
    else
      []

/-- `public_lambda_function_check` ([Lambda.5]). -/
def public_lambda_function_check (env : Env) (cache : Cache)
    (awsAccountId awsRegion awsPartition iso8601Time : String) : CheckOut :=
  let fetched := get_lambda_functions env cache
  { findings := fetched.value.flatMap (public_lambda_function_entry awsAccountId awsRegion awsPartition iso8601Time)
    cache := fetched.cache
    fetchCalls := fetched.fetchCalls }

/-- The accumulator pair `lambda_vpc_ha_subnets_check` initializes once at
check entry and mutates across the per-function loop: the unique subnet ids
seen so far (`uSubnets`) and the unique availability zones derived from them
(`uAzs`). -/
structure VpcState where
  uSubnets : List String
  uAzs : List String
deriving Repr, DecidableEq

/-- The `if x not in acc: acc.append(x)` loop pattern used for both
accumulator lists. -/
def pyAppendUnique (acc : List String) (xs : List String) : List String :=
  xs.foldl (fun acc x => if x ∈ acc then acc else acc ++ [x]) acc

/-- Loop body of `lambda_vpc_ha_subnets_check` for one function, threading the
accumulator state.  A function without `VpcConfig.SubnetIds` raises `KeyError`
before touching the accumulators and yields the exempt passing finding.
Otherwise its subnets are merged into `uSubnets`, `describe_subnets` is called
on the WHOLE accumulated `uSubnets` list, the reported zones are merged into
`uAzs`, and the verdict is `len(uAzs) <= 1` — over the accumulated zones, not
the function's own. -/
def lambda_vpc_ha_subnets_step (env : Env)
    (awsAccountId awsRegion awsPartition iso8601Time : String)
    (st : VpcState) (function : LambdaFunction) : VpcState × List Finding :=
  let lambdaArn := function.functionArn
  match function.vpcSubnetIds with
  | none =>
    (st,
     [{ schemaVersion := "2018-10-08"
        id := lambdaArn ++ "/lambda-vpc-subnet-ha-check"
        productArn := productArnFor awsPartition awsRegion awsAccountId
        generatorId := lambdaArn
        awsAccountId := awsAccountId
        firstObservedAt := iso8601Time
        createdAt := iso8601Time
        updatedAt := iso8601Time
        severityLabel := "INFORMATIONAL"
        confidence := 99
        title := "[Lambda.7] Lambda functions in VPCs should use more than one Availability Zone"
        resourceType := "AwsLambdaFunction"
        resourceId := lambdaArn
        resourcePartition := awsPartition
        resourceRegion := awsRegion
        complianceStatus := "PASSED"
        workflowStatus := "RESOLVED"
        recordState := "ARCHIVED" }])
  | some subnetIds =>
    let uSubnets := pyAppendUnique st.uSubnets subnetIds
    let uAzs := pyAppendUnique st.uAzs (uSubnets.map env.subnetAz)
    if uAzs.length ≤ 1 then
      (⟨uSubnets, uAzs⟩,
       [{ schemaVersion := "2018-10-08"
          id := lambdaArn ++ "/lambda-vpc-subnet-ha-check"
          productArn := productArnFor awsPartition awsRegion awsAccountId
          generatorId := lambdaArn
          awsAccountId := awsAccountId
          firstObservedAt := iso8601Time
          createdAt := iso8601Time
          updatedAt := iso8601Time
          severityLabel := "MEDIUM"
          confidence := 99
          title := "[Lambda.7] Lambda functions in VPCs should use more than one Availability Zone"
          resourceType := "AwsLambdaFunction"
          resourceId := lambdaArn
          resourcePartition := awsPartition
          resourceRegion := awsRegion
          complianceStatus := "FAILED"
          workflowStatus := "NEW"
          recordState := "ACTIVE" }])
    else
      (⟨uSubnets, uAzs⟩,
       [{ schemaVersion := "2018-10-08"
          id := lambdaArn ++ "/lambda-vpc-subnet-ha-check"
          productArn := productArnFor awsPartition awsRegion awsAccountId
          generatorId := lambdaArn
          awsAccountId := awsAccountId
          firstObservedAt := iso8601Time
          createdAt := iso8601Time
          updatedAt := iso8601Time
          severityLabel := "INFORMATIONAL"
          confidence := 99
          title := "[Lambda.7] Lambda functions in VPCs should use more than one Availability Zone"
          resourceType := "AwsLambdaFunction"
          resourceId := lambdaArn
          resourcePartition := awsPartition
          resourceRegion := awsRegion
          complianceStatus := "PASSED"
          workflowStatus := "RESOLVED"
          recordState := "ARCHIVED" }])

/-- The per-function loop of `lambda_vpc_ha_subnets_check`, threading the
accumulator state through the function list and concatenating the yielded
findings in order. -/
def lambda_vpc_ha_subnets_run (env : Env)
    (awsAccountId awsRegion awsPartition iso8601Time : String)
    (st : VpcState) : List LambdaFunction → VpcState × List Finding
  | [] => (st, [])
  | function :: rest =>
    let stepped := lambda_vpc_ha_subnets_step env awsAccountId awsRegion awsPartition iso8601Time st function
    let restRun := lambda_vpc_ha_subnets_run env awsAccountId awsRegion awsPartition iso8601Time stepped.1 rest
    (restRun.1, stepped.2 ++ restRun.2)

/-- `lambda_vpc_ha_subnets_check` ([Lambda.7]): `uSubnets` and `uAzs` start
empty once per invocation, then persist across the loop. -/
def lambda_vpc_ha_subnets_check (env : Env) (cache : Cache)
    (awsAccountId awsRegion awsPartition iso8601Time : String) : CheckOut :=
  let fetched := get_lambda_functions env cache
  let looped := lambda_vpc_ha_subnets_run env awsAccountId awsRegion awsPartition iso8601Time ⟨[], []⟩ fetched.value
  { findings := looped.2
    cache := fetched.cache
    fetchCalls := fetched.fetchCalls }

namespace Standalone

/-- The standalone auditor `auditors/AWS_Lambda_Auditor.py`: its
`function_unused_check()` iterates the module-level `functions` list (one
un-paginated `list_functions` response) and submits one finding per metric
result via `securityhub.batch_import_findings`.  The embedding returns the
submitted findings; the partition is hardcoded `"aws"` in the source, the
resource has type `"AwsLambda"` and no `Details`. -/
def function_unused_check (env : Env) (functions : List LambdaFunction)
    (awsAccountId awsRegion iso8601Time : String) : List Finding :=
  functions.flatMap (fun function =>
    let functionName := function.functionName
    let lambdaArn := function.functionArn
    let _ := functionName
    (env.metricData functionName).map (fun metric =>
      let differentiationDays := env.nowDay - function.lastModifiedDay
      if 0 < metric.values.length ∨ differentiationDays < 30 then
        { schemaVersion := "2018-10-08"
          id := lambdaArn ++ "/lambda-function-unused-check"
          productArn := "arn:aws:securityhub:" ++ awsRegion ++ ":" ++ awsAccountId
            ++ ":product/" ++ awsAccountId ++ "/default"
          generatorId := lambdaArn
          awsAccountId := awsAccountId
          firstObservedAt := iso8601Time
          createdAt := iso8601Time
          updatedAt := iso8601Time
          severityLabel := "INFORMATIONAL"
          confidence := 99
          title := "[Lambda.1] Lambda functions should be deleted after 30 days of no use"
          resourceType := "AwsLambda"
          resourceId := lambdaArn
          resourcePartition := "aws"
          resourceRegion := awsRegion
          complianceStatus := "PASSED"
          workflowStatus := "RESOLVED"
          recordState := "ARCHIVED" }
      else
        { schemaVersion := "2018-10-08"
          id := lambdaArn ++ "/lambda-function-unused-check"
          productArn := "arn:aws:securityhub:" ++ awsRegion ++ ":" ++ awsAccountId
            ++ ":product/" ++ awsAccountId ++ "/default"
          generatorId := lambdaArn
          awsAccountId := awsAccountId
          firstObservedAt := iso8601Time
          createdAt := iso8601Time
          updatedAt := iso8601Time
          severityLabel := "LOW"
          confidence := 99
          title := "[Lambda.1] Lambda functions should be deleted after 30 days of no use"
          resourceType := "AwsLambda"
          resourceId := lambdaArn
          resourcePartition := "aws"
          resourceRegion := awsRegion
          complianceStatus := "FAILED"
          workflowStatus := "NEW"
          recordState := "ACTIVE" }))

end Standalone

namespace Pd

/-- One entry of a finding's `Resources` list as read by the PagerDuty
integration (`resources['Type']`, `resources['Id']`). -/
structure PdResource where
  resourceType : String
  resourceId : String
deriving Repr, DecidableEq

/-- The fields of one Security Hub finding that
`ElectricEye-to-Pagerduty.py`'s `lambda_handler` reads. -/
structure PdFinding where
  severityLabel : String
  title : String
  description : String
  id : String
  awsAccountId : String
  remediationText : String
  remediationUrl : String
  resources : List PdResource
deriving Repr, DecidableEq

/-- The PagerDuty Events API request the handler POSTs for one resource:
the payload summary/severity/component, the de-duplication key, and the
`X-Routing-Key` header value. -/
structure PdRequest where
  summary : String
  severity : String
  component : String
  dedupKey : String
  routingKey : String
deriving Repr, DecidableEq

/-- Runtime failures of the embedded handler: referencing a name that a
swallowed exception (or a fallen-through `if` chain) left unbound. -/
inductive PdError where
  | nameError
deriving Repr, DecidableEq

/-- Python truthiness of a string: non-empty strings are truthy.  Used to
embed the literal `'LOW'` appearing as a bare operand of `or`. -/
def pyTruthyString (s : String) : Bool :=
  !(s == "")

/-- The severity if/elif chain of `lambda_handler`, verbatim:

    if severityLabel == 'CRITICAL':
        pdSev = str('critical')
    elif severityLabel == 'HIGH':
        pdSev = str('error')
    elif severityLabel == 'MEDIUM' or 'LOW':
        pdSev = str('warning')
    elif severityLabel == 'INFORMATIONAL':
        pdSev = str('info')
    else:
        pass

The third guard parses as `(severityLabel == 'MEDIUM') or 'LOW'`, and the
bare string literal `'LOW'` is truthy.  `none` models `pdSev` left unbound by
the final `pass`. -/
def pdSeverity (severityLabel : String) : Option String :=
  if severityLabel == "CRITICAL" then some "critical"
  else if severityLabel == "HIGH" then some "error"
  else if severityLabel == "MEDIUM" || pyTruthyString "LOW" then some "warning"
  else if severityLabel == "INFORMATIONAL" then some "info"
  else none

/-- The inner `for resources in findings['Resources']` loop: one POST per
resource.  Building `pagerdutyEvent` reads `pdSev` and building `pdHeaders`
reads `pdIntegrationKey`; if the name being read was never bound (because the
`if` chain fell through, or because the SSM fetch raised and was swallowed),
Python raises `NameError` at that point. -/
def pd_requests_for (pdSev pdIntegrationKey : Option String) (finding : PdFinding) :
    List PdResource → Except PdError (List PdRequest)
  | [] => .ok []
  | r :: rs =>
    match pdSev with
    | none => .error .nameError
    | some sev =>
      match pdIntegrationKey with
      | none => .error .nameError
      | some key =>
        match pd_requests_for pdSev pdIntegrationKey finding rs with
        | .error e => .error e
        | .ok reqs =>
          .ok ({ summary := "AWS account " ++ finding.awsAccountId
                   ++ " has failed ElectricEye check " ++ finding.title
                 severity := sev
                 component := r.resourceId
                 dedupKey := finding.id
                 routingKey := key } :: reqs)

/-- The outer `for findings in event['detail']['findings']` loop. -/
def pd_handle_findings (pdIntegrationKey : Option String) :
    List PdFinding → Except PdError (List PdRequest)
  | [] => .ok []
  | finding :: rest =>
    let severityLabel := finding.severityLabel
    let pdSev := pdSeverity severityLabel
    match pd_requests_for pdSev pdIntegrationKey finding finding.resources with
    | .error e => .error e
    | .ok reqs =>
      match pd_handle_findings pdIntegrationKey rest with
      | .error e => .error e
      | .ok reqsRest => .ok (reqs ++ reqsRest)

/-- `lambda_handler(event, context)` of `ElectricEye-to-Pagerduty.py`.
`ssmGetParameter` is the outcome of `ssm.get_parameter(...)`; its exception is
caught and printed (`except Exception as e: print(e)`) and execution falls
through with `pdIntegrationKey` unbound, modelled by `none`.  `findings` is
`event['detail']['findings']`.  On success the handler's observable effect is
the ordered list of PagerDuty requests it POSTed. -/
def lambda_handler (ssmGetParameter : Except String String) (findings : List PdFinding) :
    Except PdError (List PdRequest) :=
  let pdIntegrationKey : Option String :=
    match ssmGetParameter with
    | .ok v => some v
    | .error _ => none
  pd_handle_findings pdIntegrationKey findings

end Pd

/-- The finding consistency invariant of the spec:
`Compliance.Status == "PASSED"` iff `Workflow.Status == "RESOLVED"` iff
`RecordState == "ARCHIVED"`, symmetrically for FAILED/NEW/ACTIVE, and no
combination outside those two triples. -/
def tripleConsistent (fd : Finding) : Prop :=
  (fd.complianceStatus = "PASSED" ∧ fd.workflowStatus = "RESOLVED" ∧ fd.recordState = "ARCHIVED")
  ∨ (fd.complianceStatus = "FAILED" ∧ fd.workflowStatus = "NEW" ∧ fd.recordState = "ACTIVE")

/-- The fixed ordinal severity set of the spec. -/
def severityLabels : List String :=
  ["INFORMATIONAL", "LOW", "MEDIUM", "HIGH", "CRITICAL"]

/-- Both per-finding invariants at once: the consistency triple and a
severity label from the fixed set. -/
def findingWellFormed (fd : Finding) : Prop :=
  tripleConsistent fd ∧ fd.severityLabel ∈ severityLabels

/- Concrete fixtures used by the witness theorems. -/

/-- A function descriptor with activity, active tracing, no code signing, a
supported runtime, no VPC config, and a `get_policy` denial. -/
def sampleFunction1 : LambdaFunction :=
  { functionName := "func-one"
    functionArn := "arn:aws:lambda:us-east-1:111122223333:function:func-one"
    lastModifiedDay := 0
    tracingMode := "Active"
    signingJobArn := none
    runtime := "python3.9"
    vpcSubnetIds := none
    policy := .clientError "AccessDeniedException" }

/-- A second descriptor with a distinct ARN. -/
def sampleFunction2 : LambdaFunction :=
  { sampleFunction1 with
    functionName := "func-two"
    functionArn := "arn:aws:lambda:us-east-1:111122223333:function:func-two"
    tracingMode := "PassThrough" }

/-- A third descriptor with a distinct ARN. -/
def sampleFunction3 : LambdaFunction :=
  { sampleFunction1 with
    functionName := "func-three"
    functionArn := "arn:aws:lambda:us-east-1:111122223333:function:func-three"
    runtime := "python2.7" }

/-- A one-function environment whose metric query reports activity. -/
def sampleEnv1 : Env :=
  { listFunctionPages := [[sampleFunction1]]
    listLayerPages := []
    metricData := fun _ => [{ values := [1] }]
    subnetAz := fun _ => "us-east-1a"
    nowDay := 40 }

/-- An environment whose `list_functions` pagination yields no functions. -/
def envEmptyListing : Env :=
  { listFunctionPages := []
    listLayerPages := []
    metricData := fun _ => []
    subnetAz := fun _ => ""
    nowDay := 0 }

/-- A three-function environment spread over two pages. -/
def envThree : Env :=
  { sampleEnv1 with listFunctionPages := [[sampleFunction1, sampleFunction2], [sampleFunction3]] }

/-- A VPC-attached function spanning two availability zones. -/
def fnVpcA : LambdaFunction :=
  { sampleFunction1 with
    functionName := "vpc-a"
    functionArn := "arn:aws:lambda:us-east-1:111122223333:function:vpc-a"
    vpcSubnetIds := some ["subnet-a1", "subnet-a2"] }

/-- A VPC-attached function whose own single subnet sits in one zone. -/
def fnVpcB : LambdaFunction :=
  { sampleFunction1 with
    functionName := "vpc-b"
    functionArn := "arn:aws:lambda:us-east-1:111122223333:function:vpc-b"
    vpcSubnetIds := some ["subnet-b1"] }

/-- Subnet-to-zone lookup placing `subnet-a1` alone in `us-east-1a`. -/
def subnetAzW : String → String :=
  fun s => if s == "subnet-a1" then "us-east-1a" else "us-east-1b"

/-- Environment for the VPC HA accumulator scenario: `fnVpcA` (two zones)
listed before `fnVpcB` (one zone). -/
def envVpc : Env :=
  { sampleEnv1 with
    listFunctionPages := [[fnVpcA, fnVpcB]]
    subnetAz := subnetAzW }

/-- Accumulator state after `lambda_vpc_ha_subnets_check` has processed
`fnVpcA` from a fresh state: two zones already recorded. -/
def vpcPreState : VpcState :=
  (lambda_vpc_ha_subnets_run envVpc "111122223333" "us-east-1" "aws"
    "2024-01-01T00:00:00+00:00" ⟨[], []⟩ [fnVpcA]).1

/-- The finding the VPC HA check emits for `fnVpcB` after `fnVpcA`. -/
def fdVpcPostW : Finding :=
  ((lambda_vpc_ha_subnets_run envVpc "111122223333" "us-east-1" "aws"
    "2024-01-01T00:00:00+00:00" vpcPreState [fnVpcB]).2).headI

/-- The tracing finding for `sampleFunction1`. -/
def fdTracingW : Finding :=
  (function_tracing_entry "111122223333" "us-east-1" "aws"
    "2024-01-01T00:00:00+00:00" sampleFunction1).headI

/-- The unused-function finding for `sampleFunction1` at `nowDay = 40`. -/
def fdUnusedW : Finding :=
  (unused_function_entry { sampleEnv1 with nowDay := 40 } "111122223333" "us-east-1" "aws"
    "2024-01-01T00:00:00+00:00" sampleFunction1).headI

/-- A Security Hub resource entry as the PagerDuty integration reads it. -/
def pdResourceW : Pd.PdResource :=
  { resourceType := "AwsLambdaFunction"
    resourceId := "arn:aws:lambda:us-east-1:111122223333:function:func-one" }

/-- A finding event entry with one resource, for the PagerDuty handler. -/
def pdFindingW : Pd.PdFinding :=
  { severityLabel := "LOW"
    title := "[Lambda.2] Lambda functions should use active tracing with AWS X-Ray"
    description := "Lambda function func-one does not have Active Tracing enabled."
    id := "arn:aws:lambda:us-east-1:111122223333:function:func-one/lambda-active-tracing-check"
    awsAccountId := "111122223333"
    remediationText := "See the Lambda Developer Guide"
    remediationUrl := "https://docs.aws.amazon.com/lambda/latest/dg/services-xray.html"
    resources := [pdResourceW] }

/- Helper lemmas shared between the claim theorems. -/

theorem strDataAppend (a b : String) : (a ++ b).data = a.data ++ b.data := by
  cases a; cases b; rfl

theorem strExtData {a b : String} (h : a.data = b.data) : a = b := by
  cases a; cases b; exact congrArg String.mk h

theorem strAppendRightCancel {a b c : String} (h : a ++ c = b ++ c) : a = b := by
  have hd := congrArg String.data h
  rw [strDataAppend, strDataAppend] at hd
  exact strExtData (List.append_cancel_right hd)

/-- Two strings with fixed distinct suffixes differ, provided neither
suffix's reversal is a prefix of the other's reversal. -/
theorem strAppendNeOfSuffix {s t : String}
    (hlen : s.data.length ≤ t.data.length)
    (hpre : ¬ (s.data.reverse <+: t.data.reverse)) (a b : String) : a ++ s ≠ b ++ t := by
  intro h
  have hd := congrArg String.data h
  rw [strDataAppend, strDataAppend] at hd
  have h1 : s.data.reverse <+: (a.data ++ s.data).reverse := by
    rw [List.reverse_append]; exact List.prefix_append _ _
  have h2 : t.data.reverse <+: (a.data ++ s.data).reverse := by
    rw [hd, List.reverse_append]; exact List.prefix_append _ _
  exact hpre (List.prefix_of_prefix_length_le h1 h2 (by simpa using hlen))

/-- C1 — the claim as stated is false on the code.  `get_lambda_functions`
guards the cached value with Python truthiness (`if response:`), so a fetched
EMPTY listing, although stored under the key, is treated as a cache miss on
the second call: with an empty upstream listing and a fresh cache, two calls
in the same pass invoke the `list_functions` pagination twice, not at most
once. -/
theorem cache_idempotence_counterexample :
    ¬ ((get_lambda_functions envEmptyListing Cache.empty).fetchCalls
        + (get_lambda_functions envEmptyListing
            (get_lambda_functions envEmptyListing Cache.empty).cache).fetchCalls ≤ 1) := by
  decide

/-- C1 (amended) — calling `get_lambda_functions` twice in the same pass
always returns equal values, and invokes the underlying `list_functions`
pagination at most once provided the first call's result is non-empty (the
truthiness guard re-fetches when the cached listing is empty). -/
theorem cache_idempotence_amended (env : Env) (cache : Cache) :
    (get_lambda_functions env (get_lambda_functions env cache).cache).value
        = (get_lambda_functions env cache).value
    ∧ ((get_lambda_functions env cache).value ≠ [] →
        (get_lambda_functions env cache).fetchCalls
          + (get_lambda_functions env (get_lambda_functions env cache).cache).fetchCalls ≤ 1) := by
  rcases h : cache.getLambdaFunctions with _ | l
  · cases hf : env.listFunctionPages.flatten with
    | nil => simp [get_lambda_functions, pyTruthy, h, hf]
    | cons x xs => simp [get_lambda_functions, pyTruthy, h, hf]
  · cases l with
    | nil =>
      cases hf : env.listFunctionPages.flatten with
      | nil => simp [get_lambda_functions, pyTruthy, h, hf]
      | cons x xs => simp [get_lambda_functions, pyTruthy, h, hf]
    | cons x xs => simp [get_lambda_functions, pyTruthy, h]

/-- C1 witness: on a one-function listing the amended bound is met with
equality — the two calls fetch exactly once. -/
theorem cache_idempotence_amended_witness :
    (get_lambda_functions sampleEnv1 Cache.empty).value ≠ [] ∧
    (get_lambda_functions sampleEnv1 Cache.empty).fetchCalls
      + (get_lambda_functions sampleEnv1
          (get_lambda_functions sampleEnv1 Cache.empty).cache).fetchCalls ≤ 1 :=
  ⟨by decide, (cache_idempotence_amended sampleEnv1 Cache.empty).2 (by decide)⟩

/-- C2 — cache failure non-poisoning: starting from a cache state the
truthiness guard treats as a miss, a raising fetch propagates its error and
leaves the cache exactly as it was (the assignment to
`cache["get_lambda_functions"]` sits after the pagination loop); a subsequent
call whose fetch succeeds returns the fetched listing and populates the key. -/
theorem cache_failure_non_poisoning (cache : Cache) (e : String)
    (pages : List (List LambdaFunction))
    (hmiss : pyTruthy cache.getLambdaFunctions = false) :
    get_lambda_functionsE (.error e) cache = (.error e, cache)
    ∧ (get_lambda_functionsE (.ok pages) cache).1 = .ok pages.flatten
    ∧ (get_lambda_functionsE (.ok pages) cache).2.getLambdaFunctions = some pages.flatten := by
  simp [get_lambda_functionsE, hmiss]

/-- C2 witness at a fresh cache, an access-denied first fetch and a one-page
second fetch. -/
theorem cache_failure_non_poisoning_witness :
    get_lambda_functionsE (.error "AccessDeniedException") Cache.empty
        = (.error "AccessDeniedException", Cache.empty)
    ∧ (get_lambda_functionsE (.ok [[sampleFunction1]]) Cache.empty).1
        = .ok [[sampleFunction1]].flatten
    ∧ (get_lambda_functionsE (.ok [[sampleFunction1]]) Cache.empty).2.getLambdaFunctions
        = some [[sampleFunction1]].flatten :=
  cache_failure_non_poisoning Cache.empty "AccessDeniedException" [[sampleFunction1]] (by decide)

/-- C6 — the PagerDuty severity chain: because
`severityLabel == 'MEDIUM' or 'LOW'` parses as
`(severityLabel == 'MEDIUM') or 'LOW'` and the literal `'LOW'` is truthy,
every label other than CRITICAL and HIGH maps to `'warning'`, and no label
whatsoever reaches the branch mapping INFORMATIONAL to `'info'`. -/
theorem pagerduty_medium_low_always_warning (s : String)
    (hc : s ≠ "CRITICAL") (hh : s ≠ "HIGH") :
    Pd.pdSeverity s = some "warning" ∧ ∀ t : String, Pd.pdSeverity t ≠ some "info" := by
  have hlow : Pd.pyTruthyString "LOW" = true := by decide
  constructor
  · simp [Pd.pdSeverity, hlow, beq_iff_eq, hc, hh]
  · intro t
    by_cases h1 : t = "CRITICAL"
    · simp [Pd.pdSeverity, beq_iff_eq, h1]
    · by_cases h2 : t = "HIGH"
      · simp [Pd.pdSeverity, beq_iff_eq, h1, h2]
      · simp [Pd.pdSeverity, hlow, beq_iff_eq, h1, h2]

/-- C6 witness: the label INFORMATIONAL itself is mapped to `'warning'`,
not `'info'`. -/
theorem pagerduty_medium_low_always_warning_witness :
    Pd.pdSeverity "INFORMATIONAL" = some "warning"
    ∧ ∀ t : String, Pd.pdSeverity t ≠ some "info" :=
  pagerduty_medium_low_always_warning "INFORMATIONAL" (by decide) (by decide)

/-- C9 — in `public_lambda_function_check`, a `ClientError` from `get_policy`
whose code is not `'ResourceNotFoundException'` falls through the handler's
`if` with no `yield` and no re-raise: the function contributes no finding and
the loop moves on (the check's output is exactly the concatenation of the
per-function contributions, and such a function's contribution is empty). -/
theorem public_function_clienterror_silently_skipped
    (env : Env) (cache : Cache) (a r p t : String) (code : String)
    (hcode : code ≠ "ResourceNotFoundException") :
    (public_lambda_function_check env cache a r p t).findings
      = (get_lambda_functions env cache).value.flatMap
          (public_lambda_function_entry a r p t)
    ∧ ∀ function : LambdaFunction, function.policy = .clientError code →
        public_lambda_function_entry a r p t function = [] := by
  refine ⟨rfl, ?_⟩
  intro f hf
  simp [public_lambda_function_entry, hf, hcode]

/-- C9 witness: `sampleFunction1`'s `get_policy` raises
`AccessDeniedException`; its contribution is empty. -/
theorem public_function_clienterror_silently_skipped_witness :
    public_lambda_function_entry "111122223333" "us-east-1" "aws"
        "2024-01-01T00:00:00+00:00" sampleFunction1 = [] :=
  (public_function_clienterror_silently_skipped sampleEnv1 Cache.empty
      "111122223333" "us-east-1" "aws" "2024-01-01T00:00:00+00:00"
      "AccessDeniedException" (by decide)).2 sampleFunction1 rfl

/-- The severity if/elif chain always binds `pdSev`: its third guard is a
tautology, so the final `pass` is unreachable. -/
theorem pdSeverity_isSome (s : String) : (Pd.pdSeverity s).isSome := by
  have hlow : Pd.pyTruthyString "LOW" = true := by decide
  by_cases h1 : s = "CRITICAL"
  · simp [Pd.pdSeverity, beq_iff_eq, h1]
  · by_cases h2 : s = "HIGH"
    · simp [Pd.pdSeverity, beq_iff_eq, h1, h2]
    · simp [Pd.pdSeverity, hlow, beq_iff_eq, h1, h2]

/-- With both `pdSev` and the integration key bound, the per-resource POST
loop always succeeds. -/
theorem pd_requests_for_ok (sev key : String) (fd : Pd.PdFinding) :
    ∀ rs : List Pd.PdResource,
      ∃ reqs, Pd.pd_requests_for (some sev) (some key) fd rs = .ok reqs := by
  intro rs
  induction rs with
  | nil => exact ⟨[], rfl⟩
  | cons r rs ih =>
    obtain ⟨reqs, h⟩ := ih
    rcases h2 : Pd.pd_requests_for (some sev) (some key) fd (r :: rs) with e | v
    · simp [Pd.pd_requests_for, h] at h2
    · exact ⟨v, rfl⟩

/-- With the integration key bound, the whole handler loop succeeds. -/
theorem pd_handle_findings_ok (key : String) :
    ∀ findings : List Pd.PdFinding,
      ∃ reqs, Pd.pd_handle_findings (some key) findings = .ok reqs := by
  intro findings
  induction findings with
  | nil => exact ⟨[], rfl⟩
  | cons fd rest ih =>
    obtain ⟨sev, hsev⟩ := Option.isSome_iff_exists.mp (pdSeverity_isSome fd.severityLabel)
    obtain ⟨reqs, hreqs⟩ := pd_requests_for_ok sev key fd fd.resources
    obtain ⟨reqsRest, hrest⟩ := ih
    rcases h2 : Pd.pd_handle_findings (some key) (fd :: rest) with e | v
    · simp [Pd.pd_handle_findings, hsev, hreqs, hrest] at h2
    · exact ⟨v, rfl⟩

/-- C10 — the claim as stated is false on the code: with a raising
`get_parameter` and an event carrying no findings, the loop body never runs
and the handler completes successfully despite the failed retrieval. -/
theorem pagerduty_ssm_failure_counterexample :
    Pd.lambda_handler (.error "ParameterNotFound") [] = .ok [] := rfl

/-- C10 (amended) — when `get_parameter` raises, the exception is caught and
printed and execution continues with `pdIntegrationKey` unbound; the first
finding that carries at least one resource then raises `NameError` while
building the request (so the handler fails whenever such a finding exists),
the handler still completes when no finding carries a resource, and it always
completes when the retrieval succeeds. -/
theorem pagerduty_ssm_failure_amended (e : String) (findings : List Pd.PdFinding) :
    ((∃ fd ∈ findings, fd.resources ≠ []) →
        Pd.lambda_handler (.error e) findings = .error .nameError)
    ∧ ((∀ fd ∈ findings, fd.resources = []) →
        Pd.lambda_handler (.error e) findings = .ok [])
    ∧ (∀ key : String, ∃ reqs, Pd.lambda_handler (.ok key) findings = .ok reqs) := by
  refine ⟨?_, ?_, fun key => pd_handle_findings_ok key findings⟩
  · intro hex
    show Pd.pd_handle_findings none findings = .error .nameError
    induction findings with
    | nil => simp at hex
    | cons fd rest ih =>
      obtain ⟨sev, hsev⟩ := Option.isSome_iff_exists.mp (pdSeverity_isSome fd.severityLabel)
      rcases hres : fd.resources with _ | ⟨r, rs⟩
      · have hex' : ∃ fd ∈ rest, fd.resources ≠ [] := by
          rcases hex with ⟨fd0, hfd0, hne⟩
          rcases List.mem_cons.mp hfd0 with rfl | hmem
          · exact absurd hres hne
          · exact ⟨fd0, hmem, hne⟩
        simp [Pd.pd_handle_findings, hsev, hres, Pd.pd_requests_for, ih hex']
      · simp [Pd.pd_handle_findings, hsev, hres, Pd.pd_requests_for]
  · intro hall
    show Pd.pd_handle_findings none findings = .ok []
    induction findings with
    | nil => rfl
    | cons fd rest ih =>
      obtain ⟨sev, hsev⟩ := Option.isSome_iff_exists.mp (pdSeverity_isSome fd.severityLabel)
      have h1 : fd.resources = [] := hall fd (List.mem_cons_self fd rest)
      have h2 : ∀ fd0 ∈ rest, fd0.resources = [] :=
        fun fd0 hm => hall fd0 (List.mem_cons_of_mem fd hm)
      simp [Pd.pd_handle_findings, hsev, h1, Pd.pd_requests_for, ih h2]

/-- C10 witness: with a raising retrieval and one finding carrying one
resource, the handler dies with `NameError`. -/
theorem pagerduty_ssm_failure_amended_witness :
    Pd.lambda_handler (.error "ParameterNotFound") [pdFindingW] = .error .nameError :=
  (pagerduty_ssm_failure_amended "ParameterNotFound" [pdFindingW]).1
    ⟨pdFindingW, by decide, by decide⟩

/- Per-check well-formedness: every yielded finding satisfies the
consistency triple and carries a severity label from the fixed set. -/

theorem unused_function_entry_wf (env : Env) (a r p t : String) (f : LambdaFunction) :
    ∀ fd ∈ unused_function_entry env a r p t f, findingWellFormed fd := by
  intro fd hfd
  simp only [unused_function_entry, List.mem_map] at hfd
  obtain ⟨m, hm, rfl⟩ := hfd
  split <;> simp [findingWellFormed, tripleConsistent, severityLabels]

theorem function_tracing_entry_wf (a r p t : String) (f : LambdaFunction) :
    ∀ fd ∈ function_tracing_entry a r p t f, findingWellFormed fd := by
  intro fd hfd
  simp only [function_tracing_entry] at hfd
  split at hfd <;> (simp only [List.mem_singleton] at hfd; subst hfd; simp [findingWellFormed, tripleConsistent, severityLabels])

theorem function_code_signer_entry_wf (a r p t : String) (f : LambdaFunction) :
    ∀ fd ∈ function_code_signer_entry a r p t f, findingWellFormed fd := by
  intro fd hfd
  rcases h : f.signingJobArn with _ | arn <;>
    simp only [function_code_signer_entry, h, List.mem_singleton] at hfd <;>
    subst hfd <;> simp [findingWellFormed, tripleConsistent, severityLabels]

theorem public_lambda_layer_entry_wf (a r p t : String) (layer : LambdaLayer) :
    ∀ fd ∈ public_lambda_layer_entry a r p t layer, findingWellFormed fd := by
  intro fd hfd
  simp only [public_lambda_layer_entry, List.mem_map] at hfd
  obtain ⟨s, hs, rfl⟩ := hfd
  split <;> simp [findingWellFormed, tripleConsistent, severityLabels]

theorem public_lambda_function_entry_wf (a r p t : String) (f : LambdaFunction) :
    ∀ fd ∈ public_lambda_function_entry a r p t f, findingWellFormed fd := by
  intro fd hfd
  rcases h : f.policy with stmts | code
  · simp only [public_lambda_function_entry, h, List.mem_map] at hfd
    obtain ⟨s, hs, rfl⟩ := hfd
    split <;> simp [findingWellFormed, tripleConsistent, severityLabels]
  · simp only [public_lambda_function_entry, h] at hfd
    split at hfd
    · simp only [List.mem_singleton] at hfd; subst hfd; simp [findingWellFormed, tripleConsistent, severityLabels]
    · simp at hfd

theorem lambda_supported_runtimes_entry_wf (a r p t : String) (f : LambdaFunction) :
    ∀ fd ∈ lambda_supported_runtimes_entry a r p t f, findingWellFormed fd := by
  intro fd hfd
  simp only [lambda_supported_runtimes_entry] at hfd
  split at hfd <;> (simp only [List.mem_singleton] at hfd; subst hfd; simp [findingWellFormed, tripleConsistent, severityLabels])

theorem lambda_vpc_ha_subnets_step_wf (env : Env) (a r p t : String)
    (st : VpcState) (f : LambdaFunction) :
    ∀ fd ∈ (lambda_vpc_ha_subnets_step env a r p t st f).2, findingWellFormed fd := by
  intro fd hfd
  rcases h : f.vpcSubnetIds with _ | snets
  · simp only [lambda_vpc_ha_subnets_step, h, List.mem_singleton] at hfd
    subst hfd; simp [findingWellFormed, tripleConsistent, severityLabels]
  · simp only [lambda_vpc_ha_subnets_step, h] at hfd
    split at hfd <;> (simp only [List.mem_singleton] at hfd; subst hfd; simp [findingWellFormed, tripleConsistent, severityLabels])

theorem lambda_vpc_ha_subnets_run_wf (env : Env) (a r p t : String) :
    ∀ (fns : List LambdaFunction) (st : VpcState),
      ∀ fd ∈ (lambda_vpc_ha_subnets_run env a r p t st fns).2, findingWellFormed fd := by
  intro fns
  induction fns with
  | nil => intro st fd hfd; simp [lambda_vpc_ha_subnets_run] at hfd
  | cons f rest ih =>
    intro st fd hfd
    simp only [lambda_vpc_ha_subnets_run, List.mem_append] at hfd
    rcases hfd with hfd | hfd
    · exact lambda_vpc_ha_subnets_step_wf env a r p t st f fd hfd
    · exact ih _ fd hfd

theorem standalone_unused_wf (env : Env) (functions : List LambdaFunction)
    (a r t : String) :
    ∀ fd ∈ Standalone.function_unused_check env functions a r t, findingWellFormed fd := by
  intro fd hfd
  simp only [Standalone.function_unused_check, List.mem_flatMap, List.mem_map] at hfd
  obtain ⟨f, hf, m, hm, rfl⟩ := hfd
  split <;> simp [findingWellFormed, tripleConsistent, severityLabels]

/-- Membership in a flatMap of per-resource entries reduces to the entry
lemma. -/
theorem flatMap_wf {α : Type} (l : List α) (g : α → List Finding)
    (h : ∀ x fd, fd ∈ g x → findingWellFormed fd) :
    ∀ fd ∈ l.flatMap g, findingWellFormed fd := by
  intro fd hfd
  rw [List.mem_flatMap] at hfd
  obtain ⟨x, _, hx⟩ := hfd
  exact h x fd hx

/-- C3 — finding consistency invariant: every finding yielded by each of the
seven registered checks, and every finding submitted by the standalone
auditor, has `Compliance.Status`, `Workflow.Status` and `RecordState` equal
to one of the two coherent triples PASSED/RESOLVED/ARCHIVED or
FAILED/NEW/ACTIVE; no other combination occurs. -/
theorem finding_triple_consistency (env : Env) (cache : Cache)
    (a r p t : String) (functions : List LambdaFunction) :
    (∀ fd ∈ (unused_function_check env cache a r p t).findings, tripleConsistent fd)
    ∧ (∀ fd ∈ (function_tracing_check env cache a r p t).findings, tripleConsistent fd)
    ∧ (∀ fd ∈ (function_code_signer_check env cache a r p t).findings, tripleConsistent fd)
    ∧ (∀ fd ∈ (public_lambda_layer_check env cache a r p t).findings, tripleConsistent fd)
    ∧ (∀ fd ∈ (public_lambda_function_check env cache a r p t).findings, tripleConsistent fd)
    ∧ (∀ fd ∈ (lambda_supported_runtimes_check env cache a r p t).findings, tripleConsistent fd)
    ∧ (∀ fd ∈ (lambda_vpc_ha_subnets_check env cache a r p t).findings, tripleConsistent fd)
    ∧ (∀ fd ∈ Standalone.function_unused_check env functions a r t, tripleConsistent fd) :=
  ⟨fun fd h => (flatMap_wf _ _ (fun x fd0 h0 => unused_function_entry_wf env a r p t x fd0 h0) fd h).1,
   fun fd h => (flatMap_wf _ _ (fun x fd0 h0 => function_tracing_entry_wf a r p t x fd0 h0) fd h).1,
   fun fd h => (flatMap_wf _ _ (fun x fd0 h0 => function_code_signer_entry_wf a r p t x fd0 h0) fd h).1,
   fun fd h => (flatMap_wf _ _ (fun x fd0 h0 => public_lambda_layer_entry_wf a r p t x fd0 h0) fd h).1,
   fun fd h => (flatMap_wf _ _ (fun x fd0 h0 => public_lambda_function_entry_wf a r p t x fd0 h0) fd h).1,
   fun fd h => (flatMap_wf _ _ (fun x fd0 h0 => lambda_supported_runtimes_entry_wf a r p t x fd0 h0) fd h).1,
   fun fd h => (lambda_vpc_ha_subnets_run_wf env a r p t _ _ fd h).1,
   fun fd h => (standalone_unused_wf env functions a r t fd h).1⟩

/-- C3 witness: the tracing finding for `sampleFunction1` satisfies the
invariant. -/
theorem finding_triple_consistency_witness : tripleConsistent fdTracingW :=
  (finding_triple_consistency sampleEnv1 Cache.empty "111122223333" "us-east-1" "aws"
      "2024-01-01T00:00:00+00:00" []).2.1 fdTracingW (by decide)

/-- C5 — severity enumeration invariant: every finding yielded by each of the
seven registered checks, and by the standalone auditor, carries a
`Severity.Label` in the fixed set INFORMATIONAL/LOW/MEDIUM/HIGH/CRITICAL. -/
theorem severity_label_enumeration (env : Env) (cache : Cache)
    (a r p t : String) (functions : List LambdaFunction) :
    (∀ fd ∈ (unused_function_check env cache a r p t).findings, fd.severityLabel ∈ severityLabels)
    ∧ (∀ fd ∈ (function_tracing_check env cache a r p t).findings, fd.severityLabel ∈ severityLabels)
    ∧ (∀ fd ∈ (function_code_signer_check env cache a r p t).findings, fd.severityLabel ∈ severityLabels)
    ∧ (∀ fd ∈ (public_lambda_layer_check env cache a r p t).findings, fd.severityLabel ∈ severityLabels)
    ∧ (∀ fd ∈ (public_lambda_function_check env cache a r p t).findings, fd.severityLabel ∈ severityLabels)
    ∧ (∀ fd ∈ (lambda_supported_runtimes_check env cache a r p t).findings, fd.severityLabel ∈ severityLabels)
    ∧ (∀ fd ∈ (lambda_vpc_ha_subnets_check env cache a r p t).findings, fd.severityLabel ∈ severityLabels)
    ∧ (∀ fd ∈ Standalone.function_unused_check env functions a r t, fd.severityLabel ∈ severityLabels) :=
  ⟨fun fd h => (flatMap_wf _ _ (fun x fd0 h0 => unused_function_entry_wf env a r p t x fd0 h0) fd h).2,
   fun fd h => (flatMap_wf _ _ (fun x fd0 h0 => function_tracing_entry_wf a r p t x fd0 h0) fd h).2,
   fun fd h => (flatMap_wf _ _ (fun x fd0 h0 => function_code_signer_entry_wf a r p t x fd0 h0) fd h).2,
   fun fd h => (flatMap_wf _ _ (fun x fd0 h0 => public_lambda_layer_entry_wf a r p t x fd0 h0) fd h).2,
   fun fd h => (flatMap_wf _ _ (fun x fd0 h0 => public_lambda_function_entry_wf a r p t x fd0 h0) fd h).2,
   fun fd h => (flatMap_wf _ _ (fun x fd0 h0 => lambda_supported_runtimes_entry_wf a r p t x fd0 h0) fd h).2,
   fun fd h => (lambda_vpc_ha_subnets_run_wf env a r p t _ _ fd h).2,
   fun fd h => (standalone_unused_wf env functions a r t fd h).2⟩

/-- C5 witness: the tracing finding for `sampleFunction1` carries a label
from the fixed set. -/
theorem severity_label_enumeration_witness : fdTracingW.severityLabel ∈ severityLabels :=
  (severity_label_enumeration sampleEnv1 Cache.empty "111122223333" "us-east-1" "aws"
      "2024-01-01T00:00:00+00:00" []).2.1 fdTracingW (by decide)

/-- The finding ids `unused_function_check` yields for one function do not
depend on the metric branch taken: one id per metric entry, always
`arn + "/lambda-function-unused-check"`. -/
theorem unused_function_entry_id_map (env : Env) (a r p t : String) (f : LambdaFunction) :
    (unused_function_entry env a r p t f).map Finding.id
      = (env.metricData f.functionName).map
          (fun _ => f.functionArn ++ "/lambda-function-unused-check") := by
  simp only [unused_function_entry, List.map_map]
  apply List.map_congr_left
  intro m hm
  simp only [Function.comp]
  split <;> rfl

/-- C4 — finding id stability: running `unused_function_check` at two
different times (different wall-clock strings and different current days,
which can flip the pass/fail branch) yields findings whose `Id` lists are
equal position-by-position, and every finding's `Id` is the concatenation of
the resource identifier (= `GeneratorId` = `Resources[0].Id`, the function
ARN) with the check slug `/lambda-function-unused-check`. -/
theorem finding_id_stability (env : Env) (cache : Cache)
    (a r p t1 t2 : String) (d1 d2 : Int) :
    ((unused_function_check { env with nowDay := d1 } cache a r p t1).findings.map Finding.id
      = (unused_function_check { env with nowDay := d2 } cache a r p t2).findings.map Finding.id)
    ∧ ∀ fd ∈ (unused_function_check { env with nowDay := d1 } cache a r p t1).findings,
        fd.id = fd.generatorId ++ "/lambda-function-unused-check"
        ∧ fd.generatorId = fd.resourceId := by
  constructor
  · have key : ∀ (e : Env) (t : String),
        (unused_function_check e cache a r p t).findings.map Finding.id
          = (get_lambda_functions e cache).value.flatMap
              (fun f => (e.metricData f.functionName).map
                (fun _ => f.functionArn ++ "/lambda-function-unused-check")) := by
      intro e t
      show ((get_lambda_functions e cache).value.flatMap
          (unused_function_entry e a r p t)).map Finding.id = _
      rw [List.map_flatMap]
      exact congrArg _ (funext fun f => unused_function_entry_id_map e a r p t f)
    rw [key, key]
    have hsame : (get_lambda_functions { env with nowDay := d1 } cache).value
        = (get_lambda_functions { env with nowDay := d2 } cache).value := by
      simp [get_lambda_functions]
    rw [hsame]
  · intro fd hfd
    have hfd2 : fd ∈ (get_lambda_functions { env with nowDay := d1 } cache).value.flatMap
        (unused_function_entry { env with nowDay := d1 } a r p t1) := hfd
    rw [List.mem_flatMap] at hfd2
    obtain ⟨f, hf, hfd2⟩ := hfd2
    simp only [unused_function_entry, List.mem_map] at hfd2
    obtain ⟨m, hm, rfl⟩ := hfd2
    split <;> exact ⟨rfl, rfl⟩

/-- C4 witness: the finding for `sampleFunction1` has the deterministic id. -/
theorem finding_id_stability_witness :
    fdUnusedW.id = fdUnusedW.generatorId ++ "/lambda-function-unused-check"
    ∧ fdUnusedW.generatorId = fdUnusedW.resourceId :=
  (finding_id_stability sampleEnv1 Cache.empty "111122223333" "us-east-1" "aws"
      "2024-01-01T00:00:00+00:00" "2024-02-01T00:00:00+00:00" 40 70).2 fdUnusedW (by decide)

/-- `function_tracing_entry` yields exactly one finding per function, with id
`arn + "/lambda-active-tracing-check"` in both branches. -/
theorem function_tracing_entry_id (a r p t : String) (f : LambdaFunction) :
    (function_tracing_entry a r p t f).map Finding.id
      = [f.functionArn ++ "/lambda-active-tracing-check"] := by
  simp only [function_tracing_entry]
  split <;> rfl

/-- `lambda_supported_runtimes_entry` yields exactly one finding per
function, with id `arn + "/lambda-supported-runtimes-check"` in both
branches. -/
theorem lambda_supported_runtimes_entry_id (a r p t : String) (f : LambdaFunction) :
    (lambda_supported_runtimes_entry a r p t f).map Finding.id
      = [f.functionArn ++ "/lambda-supported-runtimes-check"] := by
  simp only [lambda_supported_runtimes_entry]
  split <;> rfl

/-- The two slugs are not suffix-compatible, so a tracing id can never
collide with a supported-runtimes id, whatever the two ARNs are. -/
theorem tracing_id_ne_runtimes_id (x y : String) :
    x ++ "/lambda-active-tracing-check" ≠ y ++ "/lambda-supported-runtimes-check" :=
  strAppendNeOfSuffix (by decide) (by decide) x y

/-- C7 — end-to-end scenario: on a fresh cache and an upstream listing of
exactly three function descriptors with pairwise distinct ARNs, running
`function_tracing_check` and then `lambda_supported_runtimes_check` (the
second seeing the cache the first left behind) produces exactly 6 findings
with pairwise distinct deterministic ids, while the `list_functions`
pagination runs exactly once across both checks. -/
theorem end_to_end_two_checks (env : Env) (a r p t : String)
    (f1 f2 f3 : LambdaFunction)
    (hj : env.listFunctionPages.flatten = [f1, f2, f3])
    (hd : [f1.functionArn, f2.functionArn, f3.functionArn].Nodup) :
    ((function_tracing_check env Cache.empty a r p t).findings
      ++ (lambda_supported_runtimes_check env
            (function_tracing_check env Cache.empty a r p t).cache a r p t).findings).length = 6
    ∧ (((function_tracing_check env Cache.empty a r p t).findings
      ++ (lambda_supported_runtimes_check env
            (function_tracing_check env Cache.empty a r p t).cache a r p t).findings).map Finding.id).Nodup
    ∧ (function_tracing_check env Cache.empty a r p t).fetchCalls
      + (lambda_supported_runtimes_check env
            (function_tracing_check env Cache.empty a r p t).cache a r p t).fetchCalls = 1 := by
  have hfetch1 : get_lambda_functions env Cache.empty =
      { value := [f1, f2, f3]
        cache := { getLambdaFunctions := some [f1, f2, f3], getLambdaLayers := none }
        fetchCalls := 1 } := by
    simp [get_lambda_functions, pyTruthy, Cache.empty, hj]
  have hfetch2 : get_lambda_functions env
      { getLambdaFunctions := some [f1, f2, f3], getLambdaLayers := none } =
      { value := [f1, f2, f3]
        cache := { getLambdaFunctions := some [f1, f2, f3], getLambdaLayers := none }
        fetchCalls := 0 } := by
    simp [get_lambda_functions, pyTruthy]
  have hout1 : function_tracing_check env Cache.empty a r p t =
      { findings := [f1, f2, f3].flatMap (function_tracing_entry a r p t)
        cache := { getLambdaFunctions := some [f1, f2, f3], getLambdaLayers := none }
        fetchCalls := 1 } := by
    simp [function_tracing_check, hfetch1]
  have hout2 : lambda_supported_runtimes_check env
      { getLambdaFunctions := some [f1, f2, f3], getLambdaLayers := none } a r p t =
      { findings := [f1, f2, f3].flatMap (lambda_supported_runtimes_entry a r p t)
        cache := { getLambdaFunctions := some [f1, f2, f3], getLambdaLayers := none }
        fetchCalls := 0 } := by
    simp [lambda_supported_runtimes_check, hfetch2]
  have hlen1 : ∀ f, (function_tracing_entry a r p t f).length = 1 := by
    intro f; simp only [function_tracing_entry]; split <;> rfl
  have hlen2 : ∀ f, (lambda_supported_runtimes_entry a r p t f).length = 1 := by
    intro f; simp only [lambda_supported_runtimes_entry]; split <;> rfl
  simp only [List.nodup_cons, List.mem_cons, List.mem_singleton, not_or,
    List.not_mem_nil, not_false_iff, and_true, List.nodup_nil] at hd
  obtain ⟨⟨h12, h13⟩, h23⟩ := hd
  rw [hout1]
  simp only [hout2]
  refine ⟨?_, ?_, ?_⟩
  · simp [List.flatMap_cons, List.flatMap_nil, hlen1, hlen2]
  · rw [List.map_append, List.map_flatMap, List.map_flatMap]
    simp only [List.flatMap_cons, List.flatMap_nil,
      function_tracing_entry_id, lambda_supported_runtimes_entry_id, List.append_nil]
    simp only [List.cons_append, List.nil_append, List.nodup_cons,
      List.mem_cons, List.mem_singleton, not_or, List.not_mem_nil,
      not_false_iff, and_true, List.nodup_nil]
    refine ⟨⟨?_, ?_, ?_, ?_, ?_⟩, ⟨?_, ?_, ?_, ?_⟩, ⟨?_, ?_, ?_⟩, ⟨?_, ?_⟩, ?_⟩
    · exact fun h => h12 (strAppendRightCancel h)
    · exact fun h => h13 (strAppendRightCancel h)
    · exact tracing_id_ne_runtimes_id _ _
    · exact tracing_id_ne_runtimes_id _ _
    · exact tracing_id_ne_runtimes_id _ _
    · exact fun h => h23 (strAppendRightCancel h)
    · exact tracing_id_ne_runtimes_id _ _
    · exact tracing_id_ne_runtimes_id _ _
    · exact tracing_id_ne_runtimes_id _ _
    · exact tracing_id_ne_runtimes_id _ _
    · exact tracing_id_ne_runtimes_id _ _
    · exact tracing_id_ne_runtimes_id _ _
    · exact fun h => h12 (strAppendRightCancel h)
    · exact fun h => h13 (strAppendRightCancel h)
    · exact fun h => h23 (strAppendRightCancel h)
  · trivial

/-- C7 witness: the scenario instantiated on `envThree` (three descriptors
spread over two pages). -/
theorem end_to_end_two_checks_witness :
    ((function_tracing_check envThree Cache.empty "111122223333" "us-east-1" "aws"
        "2024-01-01T00:00:00+00:00").findings
      ++ (lambda_supported_runtimes_check envThree
            (function_tracing_check envThree Cache.empty "111122223333" "us-east-1" "aws"
              "2024-01-01T00:00:00+00:00").cache "111122223333" "us-east-1" "aws"
            "2024-01-01T00:00:00+00:00").findings).length = 6
    ∧ (((function_tracing_check envThree Cache.empty "111122223333" "us-east-1" "aws"
        "2024-01-01T00:00:00+00:00").findings
      ++ (lambda_supported_runtimes_check envThree
            (function_tracing_check envThree Cache.empty "111122223333" "us-east-1" "aws"
              "2024-01-01T00:00:00+00:00").cache "111122223333" "us-east-1" "aws"
            "2024-01-01T00:00:00+00:00").findings).map Finding.id).Nodup
    ∧ (function_tracing_check envThree Cache.empty "111122223333" "us-east-1" "aws"
        "2024-01-01T00:00:00+00:00").fetchCalls
      + (lambda_supported_runtimes_check envThree
            (function_tracing_check envThree Cache.empty "111122223333" "us-east-1" "aws"
              "2024-01-01T00:00:00+00:00").cache "111122223333" "us-east-1" "aws"
            "2024-01-01T00:00:00+00:00").fetchCalls = 1 :=
  end_to_end_two_checks envThree "111122223333" "us-east-1" "aws"
    "2024-01-01T00:00:00+00:00" sampleFunction1 sampleFunction2 sampleFunction3
    (by decide) (by decide)

/-- `pyAppendUnique` only ever appends: the original accumulator is a prefix
of the result. -/
theorem pyAppendUnique_append (xs : List String) :
    ∀ acc : List String, ∃ l, pyAppendUnique acc xs = acc ++ l := by
  induction xs with
  | nil => intro acc; exact ⟨[], by simp [pyAppendUnique]⟩
  | cons x xs ih =>
    intro acc
    by_cases hx : x ∈ acc
    · obtain ⟨l, hl⟩ := ih acc
      exact ⟨l, by simpa [pyAppendUnique, hx] using hl⟩
    · obtain ⟨l, hl⟩ := ih (acc ++ [x])
      refine ⟨[x] ++ l, ?_⟩
      have : pyAppendUnique acc (x :: xs) = pyAppendUnique (acc ++ [x]) xs := by
        simp [pyAppendUnique, hx]
      rw [this, hl, List.append_assoc]

/-- Appending never shrinks the accumulator. -/
theorem pyAppendUnique_length_le (acc xs : List String) :
    acc.length ≤ (pyAppendUnique acc xs).length := by
  obtain ⟨l, hl⟩ := pyAppendUnique_append xs acc
  rw [hl]
  simp

/-- One step of the VPC HA loop never shrinks the accumulated zone list. -/
theorem lambda_vpc_ha_subnets_step_mono (env : Env) (a r p t : String)
    (st : VpcState) (f : LambdaFunction) :
    st.uAzs.length ≤ (lambda_vpc_ha_subnets_step env a r p t st f).1.uAzs.length := by
  rcases h : f.vpcSubnetIds with _ | snets
  · simp [lambda_vpc_ha_subnets_step, h]
  · simp only [lambda_vpc_ha_subnets_step, h]
    split <;> exact pyAppendUnique_length_le _ _

/-- Once two distinct zones are on the accumulator, the step can only emit a
PASSED finding, whatever the function's own subnet placement. -/
theorem lambda_vpc_ha_subnets_step_passed (env : Env) (a r p t : String)
    (st : VpcState) (f : LambdaFunction) (h2 : 2 ≤ st.uAzs.length) :
    ∀ fd ∈ (lambda_vpc_ha_subnets_step env a r p t st f).2,
      fd.complianceStatus = "PASSED" := by
  intro fd hfd
  rcases h : f.vpcSubnetIds with _ | snets
  · simp only [lambda_vpc_ha_subnets_step, h, List.mem_singleton] at hfd
    subst hfd; rfl
  · have hgt : ¬ ((pyAppendUnique st.uAzs
        ((pyAppendUnique st.uSubnets snets).map env.subnetAz)).length ≤ 1) := by
      have := pyAppendUnique_length_le st.uAzs
        ((pyAppendUnique st.uSubnets snets).map env.subnetAz)
      omega
    simp only [lambda_vpc_ha_subnets_step, h, hgt, if_false, List.mem_singleton] at hfd
    subst hfd; rfl

/-- Every finding the loop yields from a state that already holds two zones
is PASSED. -/
theorem lambda_vpc_ha_subnets_run_passed (env : Env) (a r p t : String) :
    ∀ (fns : List LambdaFunction) (st : VpcState), 2 ≤ st.uAzs.length →
      ∀ fd ∈ (lambda_vpc_ha_subnets_run env a r p t st fns).2,
        fd.complianceStatus = "PASSED" := by
  intro fns
  induction fns with
  | nil => intro st _ fd hfd; simp [lambda_vpc_ha_subnets_run] at hfd
  | cons f rest ih =>
    intro st h2 fd hfd
    simp only [lambda_vpc_ha_subnets_run, List.mem_append] at hfd
    rcases hfd with hfd | hfd
    · exact lambda_vpc_ha_subnets_step_passed env a r p t st f h2 fd hfd
    · exact ih _ (le_trans h2 (lambda_vpc_ha_subnets_step_mono env a r p t st f)) fd hfd

/-- Splitting the VPC HA loop at any point: the state threads through and the
findings concatenate. -/
theorem lambda_vpc_ha_subnets_run_append (env : Env) (a r p t : String)
    (pre post : List LambdaFunction) :
    ∀ st : VpcState,
      lambda_vpc_ha_subnets_run env a r p t st (pre ++ post)
        = ((lambda_vpc_ha_subnets_run env a r p t
              (lambda_vpc_ha_subnets_run env a r p t st pre).1 post).1,
           (lambda_vpc_ha_subnets_run env a r p t st pre).2
             ++ (lambda_vpc_ha_subnets_run env a r p t
                  (lambda_vpc_ha_subnets_run env a r p t st pre).1 post).2) := by
  induction pre with
  | nil => intro st; simp [lambda_vpc_ha_subnets_run]
  | cons f rest ih =>
    intro st
    simp only [List.cons_append, lambda_vpc_ha_subnets_run, List.append_eq, ih, List.append_assoc]

/-- C8 — accumulator leak in `lambda_vpc_ha_subnets_check`: `uSubnets` and
`uAzs` are initialized once per invocation and persist across the
per-function loop, so the check's findings split as loop-prefix findings
followed by loop-suffix findings computed from the carried-over state; and
once the state holds two distinct availability zones (observed for earlier
functions), every subsequent function — in particular every VPC-attached one
— is reported PASSED regardless of its own subnet placement. -/
theorem vpc_ha_accumulator_leak (env : Env) (cache : Cache) (a r p t : String)
    (pre post : List LambdaFunction)
    (hlist : (get_lambda_functions env cache).value = pre ++ post)
    (hAzs : 2 ≤ (lambda_vpc_ha_subnets_run env a r p t ⟨[], []⟩ pre).1.uAzs.length) :
    (lambda_vpc_ha_subnets_check env cache a r p t).findings
      = (lambda_vpc_ha_subnets_run env a r p t ⟨[], []⟩ pre).2
        ++ (lambda_vpc_ha_subnets_run env a r p t
              (lambda_vpc_ha_subnets_run env a r p t ⟨[], []⟩ pre).1 post).2
    ∧ ∀ fd ∈ (lambda_vpc_ha_subnets_run env a r p t
          (lambda_vpc_ha_subnets_run env a r p t ⟨[], []⟩ pre).1 post).2,
        fd.complianceStatus = "PASSED" := by
  constructor
  · show (lambda_vpc_ha_subnets_run env a r p t ⟨[], []⟩
        (get_lambda_functions env cache).value).2 = _
    rw [hlist, lambda_vpc_ha_subnets_run_append]
  · exact lambda_vpc_ha_subnets_run_passed env a r p t post _ hAzs

/-- C8 witness: after `fnVpcA` (two zones), the single-zone function
`fnVpcB` is reported PASSED. -/
theorem vpc_ha_accumulator_leak_witness :
    2 ≤ vpcPreState.uAzs.length ∧ fdVpcPostW.complianceStatus = "PASSED" :=
  ⟨by decide,
   (vpc_ha_accumulator_leak envVpc Cache.empty "111122223333" "us-east-1" "aws"
      "2024-01-01T00:00:00+00:00" [fnVpcA] [fnVpcB] (by decide) (by decide)).2
     fdVpcPostW (by decide)⟩

end ElectricEye
